import Mathlib

/-!
Shallow embedding of the `bm` directory bookmark manager (Rust), canonical
implementation `src/src/main.rs` (the TUI with a delete-confirmation dialog);
the older variant `src/main.rs` shares `load_bookmarks`/`save_bookmarks` and
differs only in the navigation formulas, which are also embedded for
comparison.

External effects are made explicit:
  - the process working directory is a `CwdResult` argument
    (`std::env::current_dir()` may fail, and `PathBuf::to_str` may be `none`);
  - calls to `save_bookmarks` and `println!` are recorded as an `Effect` list;
  - the filesystem outcomes inside `save_bookmarks` are a `SaveEnv` argument,
    and the `.unwrap()` calls are modelled by the `SaveOutcome.panicked`
    result;
  - the persisted file and the toml parser are arguments of `load_bookmarks`;
  - the event loop of `run_tui` is driven by a script of key presses and
    terminal read/draw failures, and records the terminal-mode actions it
    performs.
-/

namespace BM

structure Bookmark where
  name : String
  path : String
deriving DecidableEq, Repr

structure SessionState where
  bookmarks : List Bookmark
  selected : Nat
deriving DecidableEq, Repr

/-- An observable side effect of one command: a call to `save_bookmarks`
with the list it serializes, or a line printed to standard output. -/
inductive Effect where
  | save (bookmarks : List Bookmark)
  | stdoutLine (line : String)
deriving DecidableEq, Repr

/-- The lines written to standard output among a list of effects. -/
def stdoutLines (effects : List Effect) : List String :=
  effects.filterMap fun e =>
    match e with
    | .stdoutLine line => some line
    | .save _ => none

/-- Outcome of `std::env::current_dir()` followed by `PathBuf::to_str()`:
the read can fail (`ioErr`), the path can be non-UTF-8 (`notUtf8`),
or it yields a path string. -/
inductive CwdResult where
  | ioErr
  | notUtf8
  | ok (path : String)
deriving DecidableEq, Repr

/-- `KeyCode::Char('j') | KeyCode::Down` handler:
`selected = (selected + 1).min(bookmarks.len().saturating_sub(1))`.
Lean `Nat` subtraction is saturating, matching `saturating_sub`. -/
def moveDown (s : SessionState) : SessionState :=
  { s with selected := min (s.selected + 1) (s.bookmarks.length - 1) }

/-- `KeyCode::Char('k') | KeyCode::Up` handler:
`selected = selected.saturating_sub(1)`. -/
def moveUp (s : SessionState) : SessionState :=
  { s with selected := s.selected - 1 }

/-- The older variant `src/main.rs` line 79: `if selected + 1 < bookmarks.len()
then selected += 1`. -/
def moveDownOld (s : SessionState) : SessionState :=
  if s.selected + 1 < s.bookmarks.length then { s with selected := s.selected + 1 } else s

/-- The older variant `src/main.rs` line 84: `if selected > 0 then selected -= 1`. -/
def moveUpOld (s : SessionState) : SessionState :=
  if s.selected > 0 then { s with selected := s.selected - 1 } else s

/-- `format!("bookmark_\x7b\x7d", n)`. -/
def bookmarkName (n : Nat) : String :=
  "bookmark_" ++ toString n

/-- `KeyCode::Char('u')` handler: on a readable UTF-8 working directory,
if no bookmark has that exact path, push a bookmark named
`bookmark_(len + 1)`, call `save_bookmarks`, and set
`selected = bookmarks.len() - 1`; otherwise do nothing. -/
def addCurrentDirectory (cwd : CwdResult) (s : SessionState) : SessionState × List Effect :=
  match cwd with
  | .ioErr => (s, [])
  | .notUtf8 => (s, [])
  | .ok path =>
    if s.bookmarks.any (fun b => b.path == path) then (s, [])
    else
      let bookmarks := s.bookmarks ++ [{ name := bookmarkName (s.bookmarks.length + 1), path := path }]
      ({ bookmarks := bookmarks, selected := bookmarks.length - 1 }, [Effect.save bookmarks])

inductive ConfirmAnswer where
  | yes
  | no
deriving DecidableEq, Repr

/-- The `y`/`n` branch of the confirmation loop: on yes,
`bookmarks.remove(selected)`, then
`if selected >= bookmarks.len() && selected > 0 then selected -= 1`,
then `save_bookmarks`; on no, nothing. -/
def confirmDelete (ans : ConfirmAnswer) (s : SessionState) : SessionState × List Effect :=
  match ans with
  | .no => (s, [])
  | .yes =>
    let bookmarks := s.bookmarks.eraseIdx s.selected
    let selected :=
      if s.selected ≥ bookmarks.length ∧ s.selected > 0 then s.selected - 1 else s.selected
    ({ bookmarks := bookmarks, selected := selected }, [Effect.save bookmarks])

/-- `KeyCode::Char('!')` handler composed with the confirmation answer:
the confirmation dialog is entered only `if !bookmarks.is_empty()`. -/
def requestDeleteThenConfirm (ans : ConfirmAnswer) (s : SessionState) : SessionState × List Effect :=
  if s.bookmarks.isEmpty then (s, []) else confirmDelete ans s

/-- `KeyCode::Enter` handler: `if let Some(b) = bookmarks.get(selected)`
print `b.path` and break out of the loop (the `Bool` records termination). -/
def selectCurrent (s : SessionState) : SessionState × List Effect × Bool :=
  match s.bookmarks[s.selected]? with
  | some b => (s, [Effect.stdoutLine b.path], true)
  | none => (s, [], false)

/-- The key presses distinguished by the two `match key.code` tables; `other`
stands for every key that hits the `_ => ` arm in both. The working-directory
lookup performed by the `u` handler is attached to the key press. -/
inductive Key where
  | q
  | j
  | k
  | u (cwd : CwdResult)
  | bang
  | y
  | n
  | enter
  | other
deriving DecidableEq, Repr

/-- Whether the loop is in the inner `show_confirm` loop. -/
inductive Mode where
  | normal
  | confirming
deriving DecidableEq, Repr

structure NormalStep where
  state : SessionState
  effects : List Effect
  terminate : Bool
  mode : Mode
deriving DecidableEq, Repr

/-- One dispatch of the outer `match key.code` table of `run_tui`. -/
def dispatchNormal (key : Key) (s : SessionState) : NormalStep :=
  match key with
  | .q => ⟨s, [], true, .normal⟩
  | .j => ⟨moveDown s, [], false, .normal⟩
  | .k => ⟨moveUp s, [], false, .normal⟩
  | .u cwd => ⟨(addCurrentDirectory cwd s).1, (addCurrentDirectory cwd s).2, false, .normal⟩
  | .bang => ⟨s, [], false, if s.bookmarks.isEmpty then .normal else .confirming⟩
  | .enter => ⟨(selectCurrent s).1, (selectCurrent s).2.1, (selectCurrent s).2.2, .normal⟩
  | _ => ⟨s, [], false, .normal⟩

structure ConfirmStep where
  state : SessionState
  effects : List Effect
  mode : Mode
deriving DecidableEq, Repr

/-- One dispatch of the inner `show_confirm` table: only `y`/`Y` and `n`/`N`
are recognized; every other key leaves the confirmation pending. -/
def dispatchConfirm (key : Key) (s : SessionState) : ConfirmStep :=
  match key with
  | .y => ⟨(confirmDelete .yes s).1, (confirmDelete .yes s).2, .normal⟩
  | .n => ⟨s, [], .normal⟩
  | _ => ⟨s, [], .confirming⟩

/-- One item of the event script feeding the loop: either `terminal.draw` or
`event::read` returns `Err` on that iteration, or a key-press event arrives. -/
inductive LoopInput where
  | ioError
  | press (key : Key)
deriving DecidableEq, Repr

/-- How the `loop` in `run_tui` ends on a given script: `ok` for `break Ok(())`
(quit or select), `err` for a `?` early return, `blocked` when the script is
exhausted while the real loop would still be waiting for the next event. -/
inductive Outcome where
  | ok
  | err
  | blocked
deriving DecidableEq, Repr

/-- The terminal-mode actions `run_tui` performs, in order. -/
inductive TermAction where
  | enableRawMode
  | enterAltScreen
  | disableRawMode
  | leaveAltScreen
deriving DecidableEq, Repr

/-- The event loop of `run_tui`: each iteration consumes one script item.
An `ioError` models `terminal.draw(..)?` or `event::read()?` failing, in
either the outer loop or the inner confirmation loop: the `?` returns from
`run_tui` at once. -/
def loopGo (mode : Mode) (s : SessionState) : List LoopInput → Outcome
  | [] => .blocked
  | .ioError :: _ => .err
  | .press key :: rest =>
    match mode with
    | .normal =>
      let r := dispatchNormal key s
      if r.terminate then .ok else loopGo r.mode r.state rest
    | .confirming =>
      let r := dispatchConfirm key s
      loopGo r.mode r.state rest

/-- `run_tui` around the loop: `enable_raw_mode` and `EnterAlternateScreen`
run first; the cleanup block (`disable_raw_mode`, `LeaveAlternateScreen`)
runs only after the `loop` expression yields a value, which a `?` inside the
loop bypasses. -/
def run_tui (s0 : SessionState) (inputs : List LoopInput) : List TermAction × Outcome :=
  match loopGo .normal s0 inputs with
  | .ok => ([.enableRawMode, .enterAltScreen, .disableRawMode, .leaveAltScreen], .ok)
  | .err => ([.enableRawMode, .enterAltScreen], .err)
  | .blocked => ([.enableRawMode, .enterAltScreen], .blocked)

/-- Outcome of one filesystem call inside `save_bookmarks`. -/
inductive FsResult where
  | ok
  | err
deriving DecidableEq, Repr

/-- The two fallible filesystem calls of `save_bookmarks`:
`fs::create_dir_all(dir)` and `fs::write(path, data)`. -/
structure SaveEnv where
  createDirAll : FsResult
  writeFile : FsResult
deriving DecidableEq, Repr

inductive SaveOutcome where
  | completed
  | panicked
deriving DecidableEq, Repr

/-- `save_bookmarks`: `fs::create_dir_all(dir).unwrap()` then
`fs::write(path, data).unwrap()`; an `Err` from either call panics the
process. (`toml::to_string` of a `BookmarkFile` is infallible and is not
modelled.) -/
def save_bookmarks (env : SaveEnv) : SaveOutcome :=
  match env.createDirAll with
  | .err => .panicked
  | .ok =>
    match env.writeFile with
    | .err => .panicked
    | .ok => .completed

/-- Runs the recorded effects of a command against a filesystem environment:
each `save` effect invokes `save_bookmarks`, and a panic aborts the rest. -/
def runSaves (env : SaveEnv) : List Effect → SaveOutcome
  | [] => .completed
  | .save _ :: rest =>
    match save_bookmarks env with
    | .panicked => .panicked
    | .completed => runSaves env rest
  | .stdoutLine _ :: rest => runSaves env rest

/-- The persisted file as `load_bookmarks` can encounter it: absent,
present but unreadable (`fs::read_to_string` fails, `unwrap_or_default`
yields the empty string), or present with some content. -/
inductive FileState where
  | absent
  | unreadable
  | present (content : String)
deriving DecidableEq, Repr

/-- `load_bookmarks`, with the toml deserializer abstracted as `parseToml`
(`none` models a `toml::from_str` error): a missing file yields `[]`, and
any parse failure is `unwrap_or_default`-ed to `[]`. Total: no failure is
surfaced. -/
def load_bookmarks (parseToml : String → Option (List Bookmark)) (file : FileState) :
    List Bookmark :=
  match file with
  | .absent => []
  | .unreadable => (parseToml "").getD []
  | .present content => (parseToml content).getD []

/-- The cursor invariant of a valid session state: in bounds on a non-empty
list; `selected = 0` on the empty list (its initial and only reachable
value there). -/
def cursorOk (s : SessionState) : Prop :=
  s.selected < s.bookmarks.length ∨ (s.bookmarks = [] ∧ s.selected = 0)

instance (s : SessionState) : Decidable (cursorOk s) := by
  unfold cursorOk
  infer_instance

/-- A MoveUp or MoveDown command. -/
inductive Move where
  | up
  | down
deriving DecidableEq, Repr

def applyMove (s : SessionState) (m : Move) : SessionState :=
  match m with
  | .up => moveUp s
  | .down => moveDown s

def applyMoves (s : SessionState) (ms : List Move) : SessionState :=
  ms.foldl applyMove s

end BM

namespace BM

/-- C8: RequestDelete followed by ConfirmDelete(no) leaves both `bookmarks`
and `selected` identical to their values before RequestDelete, performs no
`save_bookmarks` call and prints nothing, and the `n` key also leaves the
confirmation mode, returning the loop to normal dispatch. -/
theorem confirm_delete_no_frame (s : SessionState) :
    requestDeleteThenConfirm .no s = (s, []) ∧
    dispatchConfirm .n s = ⟨s, [], .normal⟩ := by
  constructor
  · unfold requestDeleteThenConfirm confirmDelete
    split <;> rfl
  · rfl

/-- C10: when reading the current working directory fails, or the path is
not valid UTF-8, the `u` handler leaves the session state unchanged and
performs no effect at all (no `save_bookmarks` call, no output). -/
theorem add_current_directory_cwd_failure (s : SessionState) :
    addCurrentDirectory .ioErr s = (s, []) ∧
    addCurrentDirectory .notUtf8 s = (s, []) :=
  ⟨rfl, rfl⟩

/-- C5 counterexample: with a writable parent directory but a failing
`fs::write`, the save triggered by AddCurrentDirectory from an empty store
panics the process: the claim that save faults are tolerated and the
program does not fail is false on this input. -/
theorem save_fault_aborts_command :
    runSaves ⟨FsResult.ok, FsResult.err⟩
        (addCurrentDirectory (.ok "/tmp/proj") ⟨[], 0⟩).2 = SaveOutcome.panicked ∧
    SaveOutcome.panicked ≠ SaveOutcome.completed := by
  decide

/-- C5 amended: `save_bookmarks` unwraps both `fs::create_dir_all` and
`fs::write`, so it completes exactly when both filesystem calls succeed;
any I/O failure in it panics (aborts) the process instead of being
tolerated. -/
theorem save_bookmarks_panics_on_fault (env : SaveEnv) :
    save_bookmarks env = SaveOutcome.completed ↔
      env.createDirAll = FsResult.ok ∧ env.writeFile = FsResult.ok := by
  rcases env with ⟨cd, w⟩
  cases cd <;> cases w <;> decide

/-- C6: `load_bookmarks` returns the empty list, without surfacing any
error, both when the persisted file is absent and when its content fails
to parse; an unreadable file (read degraded to the empty string) behaves
like unparsable content. The function is total, so the program always
starts. -/
theorem load_bookmarks_tolerant (parseToml : String → Option (List Bookmark))
    (content : String) :
    load_bookmarks parseToml .absent = [] ∧
    (parseToml content = none → load_bookmarks parseToml (.present content) = []) ∧
    (parseToml "" = none → load_bookmarks parseToml .unreadable = []) := by
  refine ⟨rfl, ?_, ?_⟩ <;> intro h <;> simp [load_bookmarks, h]

/-- C6 witness: a parser that always fails, applied to the absent file and
to a concrete malformed content. -/
theorem load_bookmarks_tolerant_witness :
    ((fun (_ : String) => (none : Option (List Bookmark))) "not toml" = none) ∧
    load_bookmarks (fun _ => none) (.present "not toml") = [] :=
  ⟨rfl, (load_bookmarks_tolerant (fun _ => none) "not toml").2.1 rfl⟩

/-- C9: on the script whose first event read fails, `run_tui` ends in the
error outcome with raw mode acquired but never released: the `?` inside the
loop returns before the cleanup block, contradicting the release-on-every-
exit-path contract, while a quit script does reach the cleanup. -/
theorem raw_mode_leaked_on_io_error :
    (run_tui ⟨[], 0⟩ [LoopInput.ioError]).2 = Outcome.err ∧
    TermAction.enableRawMode ∈ (run_tui ⟨[], 0⟩ [LoopInput.ioError]).1 ∧
    TermAction.disableRawMode ∉ (run_tui ⟨[], 0⟩ [LoopInput.ioError]).1 ∧
    TermAction.leaveAltScreen ∉ (run_tui ⟨[], 0⟩ [LoopInput.ioError]).1 ∧
    (run_tui ⟨[], 0⟩ [LoopInput.press .q]).1 =
      [TermAction.enableRawMode, TermAction.enterAltScreen,
       TermAction.disableRawMode, TermAction.leaveAltScreen] := by
  decide

end BM

namespace BM

/-- C1: on a non-empty list with a valid cursor, ConfirmDelete(yes) removes
the bookmark at `selected` (the length drops by exactly one), calls
`save_bookmarks` on the new list, decrements `selected` exactly when it
equals the new length and the new length is positive, and preserves the
cursor invariant whenever the list stays non-empty. -/
theorem confirm_delete_yes_correct (s : SessionState)
    (h : s.selected < s.bookmarks.length) :
    (requestDeleteThenConfirm .yes s).1.bookmarks =
      s.bookmarks.eraseIdx s.selected ∧
    (requestDeleteThenConfirm .yes s).1.bookmarks.length = s.bookmarks.length - 1 ∧
    (requestDeleteThenConfirm .yes s).2 =
      [Effect.save (requestDeleteThenConfirm .yes s).1.bookmarks] ∧
    (requestDeleteThenConfirm .yes s).1.selected =
      (if s.selected = s.bookmarks.length - 1 ∧ 0 < s.bookmarks.length - 1
        then s.selected - 1 else s.selected) ∧
    (0 < s.bookmarks.length - 1 →
      (requestDeleteThenConfirm .yes s).1.selected < s.bookmarks.length - 1) := by
  have hne : s.bookmarks.isEmpty = false := by
    cases hb : s.bookmarks with
    | nil => rw [hb] at h; simp at h
    | cons a l => simp
  have hlen : (s.bookmarks.eraseIdx s.selected).length = s.bookmarks.length - 1 := by
    rw [List.length_eraseIdx]
    simp [h]
  have key : requestDeleteThenConfirm .yes s =
      ({ bookmarks := s.bookmarks.eraseIdx s.selected,
         selected :=
           if s.selected ≥ (s.bookmarks.eraseIdx s.selected).length ∧ s.selected > 0
             then s.selected - 1 else s.selected },
       [Effect.save (s.bookmarks.eraseIdx s.selected)]) := by
    unfold requestDeleteThenConfirm confirmDelete
    simp [hne]
  rw [key]
  dsimp only
  rw [hlen]
  refine ⟨rfl, rfl, rfl, ?_, ?_⟩
  · split_ifs <;> omega
  · intro hpos
    split_ifs <;> omega

/-- C1 witness: the scenario of §8 — list `/a`, `/b` with `selected = 1`;
after ConfirmDelete(yes) the list is `/a` alone and `selected = 0`. -/
theorem confirm_delete_yes_correct_witness :
    ((1 : Nat) < (SessionState.mk [⟨"bookmark_1", "/a"⟩, ⟨"bookmark_2", "/b"⟩] 1).bookmarks.length) ∧
    (requestDeleteThenConfirm .yes ⟨[⟨"bookmark_1", "/a"⟩, ⟨"bookmark_2", "/b"⟩], 1⟩).1 =
      ⟨[⟨"bookmark_1", "/a"⟩], 0⟩ :=
  ⟨by decide, by
    have h := confirm_delete_yes_correct ⟨[⟨"bookmark_1", "/a"⟩, ⟨"bookmark_2", "/b"⟩], 1⟩
      (by decide)
    have h1 := h.1
    have h4 := h.2.2.2.1
    rcases hr : (requestDeleteThenConfirm .yes
        ⟨[⟨"bookmark_1", "/a"⟩, ⟨"bookmark_2", "/b"⟩], 1⟩).1 with ⟨bs, sel⟩
    rw [hr] at h1 h4
    simp only at h1 h4
    subst h1
    rw [h4]
    decide⟩

end BM

namespace BM

/-- One MoveUp/MoveDown step keeps the cursor invariant and never touches
the bookmark list. -/
theorem applyMove_preserves (s : SessionState) (m : Move) (h : cursorOk s) :
    cursorOk (applyMove s m) ∧ (applyMove s m).bookmarks = s.bookmarks := by
  cases m with
  | up =>
    refine ⟨?_, rfl⟩
    unfold cursorOk at h ⊢
    simp only [applyMove, moveUp] at *
    rcases h with h | ⟨h1, h2⟩
    · exact Or.inl (by omega)
    · exact Or.inr ⟨h1, by omega⟩
  | down =>
    refine ⟨?_, rfl⟩
    unfold cursorOk at h ⊢
    simp only [applyMove, moveDown] at *
    rcases h with h | ⟨h1, h2⟩
    · exact Or.inl (by omega)
    · refine Or.inr ⟨h1, ?_⟩
      have hl : s.bookmarks.length = 0 := by rw [h1]; rfl
      omega

/-- Any sequence of MoveUp/MoveDown steps keeps the cursor invariant and
never touches the bookmark list. -/
theorem applyMoves_preserves (ms : List Move) (s : SessionState) (h : cursorOk s) :
    cursorOk (applyMoves s ms) ∧ (applyMoves s ms).bookmarks = s.bookmarks := by
  induction ms generalizing s with
  | nil => exact ⟨h, rfl⟩
  | cons m rest ih =>
    have h1 := applyMove_preserves s m h
    have h2 := ih (applyMove s m) h1.1
    exact ⟨h2.1, h2.2.trans h1.2⟩

/-- C2: from any valid session state, every sequence of MoveUp/MoveDown
commands leaves the bookmark list untouched and keeps `selected` below the
length (hence in `[0, len - 1]`, never wrapping past either end); on an
empty list both commands are no-ops; and on valid states the older
variant's guards agree step by step with the canonical clamping formulas. -/
theorem moves_stay_in_bounds (s : SessionState) (ms : List Move) (h : cursorOk s) :
    ((applyMoves s ms).bookmarks = s.bookmarks ∧
      (s.bookmarks ≠ [] → (applyMoves s ms).selected < s.bookmarks.length)) ∧
    (s.bookmarks = [] → ∀ m, applyMove s m = s) ∧
    (moveUpOld s = moveUp s ∧ moveDownOld s = moveDown s) := by
  have hp := applyMoves_preserves ms s h
  refine ⟨⟨hp.2, ?_⟩, ?_, ?_, ?_⟩
  · intro hne
    rcases hp.1 with hin | ⟨hemp, _⟩
    · rwa [hp.2] at hin
    · rw [hp.2] at hemp
      exact absurd hemp hne
  · intro he m
    have hsel : s.selected = 0 := by
      rcases h with hlt | ⟨_, h2⟩
      · rw [he] at hlt
        simp at hlt
      · exact h2
    rcases s with ⟨bs, sel⟩
    simp only at he hsel
    subst he
    subst hsel
    cases m <;> rfl
  · rcases s with ⟨bs, sel⟩
    unfold moveUpOld moveUp
    cases sel <;> simp
  · rcases s with ⟨bs, sel⟩
    unfold moveDownOld moveDown
    rcases h with hlt | ⟨h1, h2⟩
    · dsimp only at hlt ⊢
      split_ifs with hsplit <;> (congr 1; omega)
    · simp only at h1 h2
      subst h1
      subst h2
      rfl

/-- C2 witness: the §8 scenario state — list of three paths with
`selected = 2` — driven by three MoveUp steps, plus the no-op and
old-variant conjuncts at that input. -/
theorem moves_stay_in_bounds_witness :
    cursorOk ⟨[⟨"b1", "/a"⟩, ⟨"b2", "/b"⟩, ⟨"b3", "/c"⟩], 2⟩ ∧
    ((applyMoves ⟨[⟨"b1", "/a"⟩, ⟨"b2", "/b"⟩, ⟨"b3", "/c"⟩], 2⟩
        [.up, .up, .up]).bookmarks = [⟨"b1", "/a"⟩, ⟨"b2", "/b"⟩, ⟨"b3", "/c"⟩] ∧
      (([⟨"b1", "/a"⟩, ⟨"b2", "/b"⟩, ⟨"b3", "/c"⟩] : List Bookmark) ≠ [] →
        (applyMoves ⟨[⟨"b1", "/a"⟩, ⟨"b2", "/b"⟩, ⟨"b3", "/c"⟩], 2⟩
          [.up, .up, .up]).selected < 3)) :=
  ⟨by decide, by
    have h := (moves_stay_in_bounds ⟨[⟨"b1", "/a"⟩, ⟨"b2", "/b"⟩, ⟨"b3", "/c"⟩], 2⟩
      [.up, .up, .up] (by decide)).1
    exact h⟩

end BM


namespace BM

/-- When some bookmark already has path `p`, the `u` handler is a no-op
with no effects. -/
theorem addCurrentDirectory_of_any_true (s : SessionState) (p : String)
    (h : s.bookmarks.any (fun b => b.path == p) = true) :
    addCurrentDirectory (.ok p) s = (s, []) := by
  unfold addCurrentDirectory
  dsimp only
  rw [h]
  simp

/-- When no bookmark has path `p`, the `u` handler appends the
auto-named bookmark, saves, and selects the new last entry. -/
theorem addCurrentDirectory_of_any_false (s : SessionState) (p : String)
    (h : s.bookmarks.any (fun b => b.path == p) = false) :
    addCurrentDirectory (.ok p) s =
      (SessionState.mk
        (s.bookmarks ++ [Bookmark.mk (bookmarkName (s.bookmarks.length + 1)) p])
        s.bookmarks.length,
       [Effect.save
         (s.bookmarks ++ [Bookmark.mk (bookmarkName (s.bookmarks.length + 1)) p])]) := by
  unfold addCurrentDirectory
  dsimp only
  rw [h]
  simp

/-- C3: AddCurrentDirectory is idempotent on the bookmark set: given the §3
insertion-time invariant (at most one bookmark with the working-directory
path), applying the command twice with the same path equals applying it
once, and the resulting list holds exactly one entry for that path, because
the second invocation hits the exact-path de-duplication no-op. -/
theorem add_current_directory_idem (s : SessionState) (p : String)
    (h : s.bookmarks.countP (fun b => b.path == p) ≤ 1) :
    (addCurrentDirectory (.ok p) (addCurrentDirectory (.ok p) s).1).1 =
      (addCurrentDirectory (.ok p) s).1 ∧
    (addCurrentDirectory (.ok p) s).1.bookmarks.countP (fun b => b.path == p) = 1 := by
  cases hany : s.bookmarks.any (fun b => b.path == p) with
  | true =>
    have hfst : (addCurrentDirectory (.ok p) s).1 = s :=
      congrArg Prod.fst (addCurrentDirectory_of_any_true s p hany)
    have hpos : 0 < s.bookmarks.countP (fun b => b.path == p) := by
      rw [List.countP_pos_iff]
      rcases List.any_eq_true.mp hany with ⟨b, hb, hbp⟩
      exact ⟨b, hb, hbp⟩
    refine ⟨?_, ?_⟩
    · rw [hfst]
      exact hfst
    · rw [hfst]
      omega
  | false =>
    have h1 := addCurrentDirectory_of_any_false s p hany
    have hzero : s.bookmarks.countP (fun b => b.path == p) = 0 := by
      rw [List.countP_eq_zero]
      exact fun a ha hpa => (List.any_eq_false.mp hany) a ha hpa
    have hany3 : (s.bookmarks ++
        [Bookmark.mk (bookmarkName (s.bookmarks.length + 1)) p]).any
        (fun b => b.path == p) = true := by
      simp
    refine ⟨?_, ?_⟩
    · rw [h1]
      dsimp only
      have h2 := addCurrentDirectory_of_any_true
        (SessionState.mk
          (s.bookmarks ++ [Bookmark.mk (bookmarkName (s.bookmarks.length + 1)) p])
          s.bookmarks.length) p hany3
      rw [h2]
    · rw [h1]
      dsimp only
      rw [List.countP_append, hzero]
      simp

/-- C3 witness: starting from the empty store (where at most one entry per
path holds vacuously), two additions of the same path agree with one and
yield a single entry for it. -/
theorem add_current_directory_idem_witness :
    (List.countP (fun b => b.path == "/tmp/proj")
        (SessionState.mk [] 0).bookmarks ≤ 1) ∧
    ((addCurrentDirectory (.ok "/tmp/proj")
        (addCurrentDirectory (.ok "/tmp/proj") ⟨[], 0⟩).1).1 =
      (addCurrentDirectory (.ok "/tmp/proj") ⟨[], 0⟩).1 ∧
     (addCurrentDirectory (.ok "/tmp/proj") ⟨[], 0⟩).1.bookmarks.countP
        (fun b => b.path == "/tmp/proj") = 1) :=
  ⟨by decide, add_current_directory_idem ⟨[], 0⟩ "/tmp/proj" (by decide)⟩

/-- C4: when no bookmark has the working-directory path, AddCurrentDirectory
appends a bookmark named `bookmark_` followed by the current count plus one,
with that path, records exactly one `save_bookmarks` call on the new list,
and moves the cursor to the new last entry. -/
theorem add_current_directory_new (s : SessionState) (p : String)
    (h : s.bookmarks.any (fun b => b.path == p) = false) :
    addCurrentDirectory (.ok p) s =
      (SessionState.mk
        (s.bookmarks ++ [Bookmark.mk (bookmarkName (s.bookmarks.length + 1)) p])
        s.bookmarks.length,
       [Effect.save
         (s.bookmarks ++ [Bookmark.mk (bookmarkName (s.bookmarks.length + 1)) p])]) :=
  addCurrentDirectory_of_any_false s p h

/-- C4 witness: the §8 scenario — empty store, adding `/tmp/proj` yields the
single bookmark `bookmark_1` with that path, selected at index 0. -/
theorem add_current_directory_new_witness :
    (List.any ([] : List Bookmark) (fun b => b.path == "/tmp/proj") = false) ∧
    addCurrentDirectory (.ok "/tmp/proj") ⟨[], 0⟩ =
      (⟨[⟨"bookmark_1", "/tmp/proj"⟩], 0⟩,
       [Effect.save [⟨"bookmark_1", "/tmp/proj"⟩]]) := by
  refine ⟨rfl, ?_⟩
  rw [add_current_directory_new ⟨[], 0⟩ "/tmp/proj" rfl]
  decide

end BM

namespace BM

/-- C7: SelectCurrent on a valid cursor emits exactly one standard-output
line — the selected bookmark's path — and terminates the session; on an
empty list it is a no-op that keeps the loop running; and no other key, in
normal or confirmation mode, ever produces a standard-output line. -/
theorem select_current_stdout (s : SessionState) :
    (∀ b, s.bookmarks[s.selected]? = some b →
        dispatchNormal .enter s = ⟨s, [Effect.stdoutLine b.path], true, .normal⟩) ∧
    (s.bookmarks = [] → dispatchNormal .enter s = ⟨s, [], false, .normal⟩) ∧
    (∀ key, key ≠ Key.enter → stdoutLines (dispatchNormal key s).effects = []) ∧
    (∀ key, stdoutLines (dispatchConfirm key s).effects = []) := by
  refine ⟨?_, ?_, ?_, ?_⟩
  · intro b hb
    simp [dispatchNormal, selectCurrent, hb]
  · intro he
    have hnone : s.bookmarks[s.selected]? = none := by
      rw [he]
      simp
    simp [dispatchNormal, selectCurrent, hnone]
  · intro key hne
    cases key with
    | q => rfl
    | j => rfl
    | k => rfl
    | u cwd =>
      cases cwd with
      | ioErr => rfl
      | notUtf8 => rfl
      | ok p =>
        cases hx : s.bookmarks.any (fun b => b.path == p) with
        | true =>
          have h1 := addCurrentDirectory_of_any_true s p hx
          simp [dispatchNormal, h1, stdoutLines]
        | false =>
          have h1 := addCurrentDirectory_of_any_false s p hx
          simp [dispatchNormal, h1, stdoutLines]
    | bang => rfl
    | y => rfl
    | n => rfl
    | enter => exact absurd rfl hne
    | other => rfl
  · intro key
    cases key with
    | y =>
      have hy : (confirmDelete .yes s).2 =
          [Effect.save (s.bookmarks.eraseIdx s.selected)] := rfl
      simp [dispatchConfirm, hy, stdoutLines]
    | n => rfl
    | q => rfl
    | j => rfl
    | k => rfl
    | u cwd => rfl
    | bang => rfl
    | enter => rfl
    | other => rfl

/-- C7 witness: the §8 scenario — singleton list `/a`, `selected = 0`:
SelectCurrent emits exactly the line `/a` and terminates; the quit key
emits nothing. -/
theorem select_current_stdout_witness :
    ((SessionState.mk [⟨"bookmark_1", "/a"⟩] 0).bookmarks[(0 : Nat)]? =
        some ⟨"bookmark_1", "/a"⟩) ∧
    dispatchNormal .enter ⟨[⟨"bookmark_1", "/a"⟩], 0⟩ =
      ⟨⟨[⟨"bookmark_1", "/a"⟩], 0⟩, [Effect.stdoutLine "/a"], true, .normal⟩ ∧
    stdoutLines (dispatchNormal .q ⟨[⟨"bookmark_1", "/a"⟩], 0⟩).effects = [] :=
  ⟨rfl,
   (select_current_stdout ⟨[⟨"bookmark_1", "/a"⟩], 0⟩).1 ⟨"bookmark_1", "/a"⟩ rfl,
   (select_current_stdout ⟨[⟨"bookmark_1", "/a"⟩], 0⟩).2.2.1 .q (by decide)⟩

end BM
